import Mathlib

set_option linter.unusedVariables false

/-!
Shallow embedding of the CodeRefine request/response pipeline:
the `CodeAnalysisAPI` client (`transformResponse`, `transformIssues`,
`calculateQualityScore`, `countSeverity`, `makeRequest`, `analyzeCode`,
`validateInput`) and the page's mock provider (`getMockAnalysisData`).
JavaScript exceptions are modelled with `Option`/`Except`; JS string
truthiness (`""` is falsy) is modelled explicitly.
-/

/-- JS `a || b` on possibly-absent strings: an absent (`undefined`) or empty
string falls through to the second operand. -/
def jsOrS : Option String → Option String → Option String
  | some s, b => if s = "" then b else some s
  | none, b => b

/-- JS `a || d` where `d` is a present string, so the result is present. -/
def jsOrSD (a : Option String) (d : String) : String :=
  match a with
  | some s => if s = "" then d else s
  | none => d

/-- JS `String.prototype.toLowerCase()`, modelled character-wise so that it
is kernel-computable. -/
def jsToLowerCase (s : String) : String := String.mk (s.data.map Char.toLower)

/-- JS `String.prototype.trim()`: strip leading and trailing whitespace,
modelled on the character list so that it is kernel-computable. -/
def jsTrim (s : String) : String :=
  String.mk (((s.data.dropWhile Char.isWhitespace).reverse.dropWhile
    Char.isWhitespace).reverse)

/-- Rendering of `issue.line || 'Unknown'` inside the template string
`Line ${...}`; `0` is falsy in JS, so a zero line also renders as Unknown. -/
def lineString : Option Nat → String
  | some n => if n = 0 then "Unknown" else toString n
  | none => "Unknown"

/-- A raw finding as it may arrive from the provider: every field can be
absent (`undefined`). Field names are the ones `transformIssues` reads. -/
structure RawFinding where
  title : Option String := none
  message : Option String := none
  severity : Option String := none
  description : Option String := none
  details : Option String := none
  location : Option String := none
  line : Option Nat := none
  codeSnippet : Option String := none
  recommendation : Option String := none
  fix : Option String := none
deriving Repr, DecidableEq

/-- A finding after `transformIssues`: `title` and `description` stay
possibly-`undefined` (their JS fallback chains end in `undefined`), the
other fields always receive a string. -/
structure Finding where
  title : Option String
  severity : String
  description : Option String
  location : String
  code : String
  suggestion : String
deriving Repr, DecidableEq

/-- The `stats` block of a report. -/
structure Stats where
  issuesCount : Nat
  securityCount : Nat
  optimizationsCount : Nat
  qualityScore : String
deriving Repr, DecidableEq

/-- The normalized report shape produced by `transformResponse`. -/
structure AnalysisReport where
  issues : List Finding
  security : List Finding
  performance : List Finding
  optimized : String
  stats : Stats
deriving Repr, DecidableEq

/-- A provider response object: each collection and the optimized code may be
absent. -/
structure ApiResponse where
  issues : Option (List RawFinding) := none
  security : Option (List RawFinding) := none
  performance : Option (List RawFinding) := none
  optimizedCode : Option String := none
deriving Repr, DecidableEq

/-- JS `xs || []` on a possibly-absent array. -/
def orEmpty : Option (List RawFinding) → List RawFinding
  | none => []
  | some l => l

/-- One step of `transformIssues`' map callback. `issue.severity.toLowerCase()`
throws a TypeError when `severity` is absent, modelled as `none`; every other
field is reached through a `||` fallback chain and cannot throw. -/
def transformIssue (issue : RawFinding) : Option Finding :=
  match issue.severity with
  | none => none
  | some sev =>
    some
      { title := jsOrS issue.title issue.message
        severity := jsToLowerCase sev
        description := jsOrS issue.description issue.details
        location := jsOrSD issue.location ("Line " ++ lineString issue.line)
        code := jsOrSD issue.codeSnippet ""
        suggestion := jsOrSD (jsOrS issue.recommendation issue.fix) "" }

/-- `transformIssues`: `issues.map(...)`; the JS map throws at the first
finding whose `severity` is absent, so the whole result is `none` then. -/
def transformIssues : List RawFinding → Option (List Finding)
  | [] => some []
  | issue :: rest =>
    match transformIssue issue with
    | none => none
    | some f =>
      match transformIssues rest with
      | none => none
      | some fs => some (f :: fs)

/-- The concatenation `[...issues, ...security, ...performance]` built by
`countSeverity`. -/
def allRawFindings (apiResponse : ApiResponse) : List RawFinding :=
  orEmpty apiResponse.issues ++ orEmpty apiResponse.security ++
    orEmpty apiResponse.performance

/-- The lower-cased severities of a finding list, read left to right; throws
(`none`) at the first finding whose `severity` is absent, as the JS filter
callback `issue.severity.toLowerCase()` does. -/
def severitiesOf : List RawFinding → Option (List String)
  | [] => some []
  | issue :: rest =>
    match issue.severity with
    | none => none
    | some s => (severitiesOf rest).map (fun l => jsToLowerCase s :: l)

/-- `countSeverity(apiResponse, severity)`: filters the concatenated findings
by lower-cased severity and takes the length. -/
def countSeverity (apiResponse : ApiResponse) (severity : String) : Option Nat :=
  (severitiesOf (allRawFindings apiResponse)).map
    (fun l => (l.filter (fun s => s = severity)).length)

/-- `totalIssues` as computed in `calculateQualityScore`: the summed lengths
of the three raw collections. -/
def totalFindings (apiResponse : ApiResponse) : Nat :=
  (orEmpty apiResponse.issues).length + (orEmpty apiResponse.security).length +
    (orEmpty apiResponse.performance).length

/-- The grade chain of `calculateQualityScore` as a function of the
high-severity count and the total finding count. -/
def qualityGrade (highSeverity totalIssues : Nat) : String :=
  if totalIssues = 0 then "A+"
  else if highSeverity = 0 ∧ totalIssues ≤ 2 then "A"
  else if highSeverity = 0 ∧ totalIssues ≤ 5 then "B+"
  else if highSeverity ≤ 1 ∧ totalIssues ≤ 8 then "B"
  else if highSeverity ≤ 2 then "C+"
  else "C"

/-- `calculateQualityScore(apiResponse)`: computes `totalIssues`, then the
high- and medium-severity counts (each can throw on a severity-less finding),
then the grade chain. -/
def calculateQualityScore (apiResponse : ApiResponse) : Option String :=
  let totalIssues := totalFindings apiResponse
  match countSeverity apiResponse "high" with
  | none => none
  | some highSeverity =>
    match countSeverity apiResponse "medium" with
    | none => none
    | some _mediumSeverity => some (qualityGrade highSeverity totalIssues)

/-- `transformResponse(apiResponse)`: maps the three collections through
`transformIssues` (in source order), then builds the report; a throw anywhere
propagates as `none`. -/
def transformResponse (apiResponse : ApiResponse) : Option AnalysisReport :=
  match transformIssues (orEmpty apiResponse.issues) with
  | none => none
  | some issues =>
    match transformIssues (orEmpty apiResponse.security) with
    | none => none
    | some security =>
      match transformIssues (orEmpty apiResponse.performance) with
      | none => none
      | some performance =>
        match calculateQualityScore apiResponse with
        | none => none
        | some qualityScore =>
          some
            { issues := issues
              security := security
              performance := performance
              optimized := jsOrSD apiResponse.optimizedCode ""
              stats :=
                { issuesCount := (orEmpty apiResponse.issues).length
                  securityCount := (orEmpty apiResponse.security).length
                  optimizationsCount := (orEmpty apiResponse.performance).length
                  qualityScore := qualityScore } }

/-- The position of a grade on the fixed ordering A+ > A > B+ > B > C+ > C
(larger number = better grade). -/
def gradeValue : String → Nat
  | "A+" => 5
  | "A" => 4
  | "B+" => 3
  | "B" => 2
  | "C+" => 1
  | _ => 0

/-- `makeRequest`'s retry loop, fuel-indexed: `attempt` is the current 0-based
attempt index, `fuel` the attempts still allowed (`maxRetries - attempt + 1`).
The provider is a function from attempt index to outcome (`none` = the fetch
threw or returned a non-ok status). Returns the final outcome, the number of
attempts performed, and the list of inter-attempt delays in order; a delay of
`retryDelay * (attempt + 1)` is taken only when `attempt < maxRetries`,
i.e. when at least one more attempt remains. -/
def makeRequestGo {α : Type} (behavior : Nat → Option α) (retryDelay : Nat) :
    Nat → Nat → Option α × Nat × List Nat
  | _, 0 => (none, 0, [])
  | attempt, fuel + 1 =>
    match behavior attempt with
    | some v => (some v, 1, [])
    | none =>
      match fuel with
      | 0 => (none, 1, [])
      | fuel' + 1 =>
        let rest := makeRequestGo behavior retryDelay (attempt + 1) (fuel' + 1)
        (rest.1, rest.2.1 + 1, retryDelay * (attempt + 1) :: rest.2.2)

/-- `makeRequest`: the loop `for (attempt = 0; attempt <= maxRetries; attempt++)`,
so `maxRetries + 1` attempts are allowed. `none` in the first component models
`throw lastError` after exhaustion. -/
def makeRequest {α : Type} (behavior : Nat → Option α)
    (maxRetries retryDelay : Nat) : Option α × Nat × List Nat :=
  makeRequestGo behavior retryDelay 0 (maxRetries + 1)

/-- `analyzeCode`: dispatches via `makeRequest`, normalizes via
`transformResponse`; any throw from either is caught and re-raised as the
single message `Failed to analyze code. Please try again.`. -/
def analyzeCode (behavior : Nat → Option ApiResponse)
    (maxRetries retryDelay : Nat) : Except String AnalysisReport :=
  match (makeRequest behavior maxRetries retryDelay).1 with
  | none => Except.error "Failed to analyze code. Please try again."
  | some response =>
    match transformResponse response with
    | none => Except.error "Failed to analyze code. Please try again."
    | some report => Except.ok report

/-- The `supportedLanguages` array declared inside `validateInput`. -/
def supportedLanguages : List String :=
  ["javascript", "python", "java", "cpp", "csharp",
   "go", "rust", "typescript", "php", "ruby", "swift", "kotlin"]

/-- `validateInput(code, language)`: pushes one message per violated
constraint and returns `{ isValid: errors.length === 0, errors }`.
`!code` on a string is truth-testing, i.e. `code = ""`. -/
def validateInput (code language : String) : Bool × List String :=
  let errors : List String := []
  let errors :=
    if code = "" ∨ (jsTrim code).length = 0 then
      errors ++ ["Code cannot be empty"]
    else errors
  let errors :=
    if code.length > 50000 then
      errors ++ ["Code exceeds maximum length of 50,000 characters"]
    else errors
  let errors :=
    if supportedLanguages.contains language = false then
      errors ++ ["Unsupported language: " ++ language]
    else errors
  (errors.length == 0, errors)

/-- A finding as the mock provider (and the renderer) carries it: every field
present. -/
structure MockFinding where
  title : String
  severity : String
  description : String
  location : String
  code : String
  suggestion : String
deriving Repr, DecidableEq

/-- The mock provider's report shape (same layout as the expected API
response after normalization). -/
structure MockAnalysis where
  issues : List MockFinding
  security : List MockFinding
  performance : List MockFinding
  optimized : String
  stats : Stats
deriving Repr, DecidableEq

/-- `getMockAnalysisData(code, language)`: the page's hard-coded sample
report, returned for every input. -/
def getMockAnalysisData (code language : String) : MockAnalysis :=
  { issues :=
      [{ title := "Using var instead of const/let"
         severity := "medium"
         description := "The var keyword has function scope which can lead to unexpected behavior. Use const for constants and let for variables that need to be reassigned."
         location := "Line 2"
         code := "var total = 0;"
         suggestion := "Replace var with let or const based on whether the variable is reassigned." },
       { title := "Inefficient loop iteration"
         severity := "low"
         description := "Accessing array.length in every loop iteration is inefficient. Cache the length before the loop."
         location := "Line 3"
         code := "for (var i = 0; i < items.length; i++)"
         suggestion := "Cache the array length: const len = items.length; for (let i = 0; i < len; i++)" }]
    security :=
      [{ title := "Potential type coercion issue"
         severity := "medium"
         description := "Using loose equality (==) can lead to unexpected type coercion. Always use strict equality (===) to avoid security vulnerabilities."
         location := "Line 3"
         code := "if (value == null)"
         suggestion := "Use strict equality: if (value === null)" }]
    performance :=
      [{ title := "Array concatenation in loop"
         severity := "medium"
         description := "Concatenating values in a loop creates a new array on each iteration, which is inefficient for large datasets."
         location := "Line 3-5"
         code := "total = total + items[i].price;"
         suggestion := "Use array methods like reduce() for better performance: items.reduce((sum, item) => sum + item.price, 0)" },
       { title := "Consider using modern array methods"
         severity := "low"
         description := "Modern array methods like reduce(), map(), and filter() are more declarative and often more performant."
         location := "Line 3-5"
         code := "for loop"
         suggestion := "Use functional programming approach with reduce() method" }]
    optimized := "// Optimized version using modern JavaScript best practices\n\nfunction calculateTotal(items) \x7b\n    // Validate input\n    if (!Array.isArray(items)) \x7b\n        throw new TypeError('Expected items to be an array');\n    \x7d\n    \n    // Use reduce for efficient summation\n    // This is more declarative and typically better optimized by JS engines\n    return items.reduce((total, item) => \x7b\n        // Validate each item has a price property\n        if (typeof item?.price !== 'number') \x7b\n            console.warn('Item missing valid price:', item);\n            return total;\n        \x7d\n        return total + item.price;\n    \x7d, 0);\n\x7d\n\n// Alternative: If you need to filter out invalid items first\nfunction calculateTotalWithValidation(items) \x7b\n    return items\n        .filter(item => typeof item?.price === 'number')\n        .reduce((total, item) => total + item.price, 0);\n\x7d\n\n// Example usage:\nconst items = [\n    \x7b name: 'Item 1', price: 10.99 \x7d,\n    \x7b name: 'Item 2', price: 25.50 \x7d,\n    \x7b name: 'Item 3', price: 5.00 \x7d\n];\n\nconsole.log(calculateTotal(items)); // 41.49"
    stats :=
      { issuesCount := 2
        securityCount := 1
        optimizationsCount := 2
        qualityScore := "B+" } }

/-- The spec's example end-to-end input code. -/
def exampleCode : String :=
  "var total = 0;\nfor (var i = 0; i < items.length; i++) \x7b total = total + items[i].price; \x7d"

/-- A provider response where every field is absent. -/
def emptyApiResponse : ApiResponse := {}

/-- A partially populated finding: an object with no fields at all, in
particular no `severity`. -/
def bareFinding : RawFinding := {}

/-- A provider response whose `issues` collection holds one partially
populated finding. -/
def partialResponse : ApiResponse := { issues := some [bareFinding] }

/-- A response whose findings all carry a `severity` (other fields mostly
absent), used to instantiate the tolerant-normalization theorem. -/
def severityOnlyResponse : ApiResponse :=
  { issues := some [{ severity := some "HIGH", message := some "Found an issue" }] }

/-- A 50,001-character code string, one character over the configured
maximum length. -/
def oversizedCode : String := String.mk (List.replicate 50001 'a')

/-! Helper lemmas (shared; not claim theorems). -/

theorem transformIssues_isSome_of_severities (l : List RawFinding)
    (h : ∀ f ∈ l, f.severity ≠ none) : (transformIssues l).isSome := by
  induction l with
  | nil => rfl
  | cons a rest ih =>
    have hr := ih (fun f hf => h f (List.mem_cons_of_mem a hf))
    have ha := h a (List.mem_cons_self a rest)
    cases hsev : a.severity with
    | none => exact absurd hsev ha
    | some s =>
      obtain ⟨fs, hfs⟩ := Option.isSome_iff_exists.mp hr
      simp [transformIssues, transformIssue, hsev, hfs]

theorem severitiesOf_isSome_of_severities (l : List RawFinding)
    (h : ∀ f ∈ l, f.severity ≠ none) : (severitiesOf l).isSome := by
  induction l with
  | nil => rfl
  | cons a rest ih =>
    have hr := ih (fun f hf => h f (List.mem_cons_of_mem a hf))
    have ha := h a (List.mem_cons_self a rest)
    cases hsev : a.severity with
    | none => exact absurd hsev ha
    | some s =>
      obtain ⟨ss, hss⟩ := Option.isSome_iff_exists.mp hr
      simp [severitiesOf, hsev, hss]

theorem transformIssues_length (l : List RawFinding) (fs : List Finding)
    (h : transformIssues l = some fs) : fs.length = l.length := by
  induction l generalizing fs with
  | nil =>
    simp only [transformIssues] at h
    cases h
    rfl
  | cons a rest ih =>
    unfold transformIssues at h
    cases ht : transformIssue a with
    | none => rw [ht] at h; cases h
    | some f =>
      rw [ht] at h
      cases hr : transformIssues rest with
      | none => rw [hr] at h; cases h
      | some fs' =>
        rw [hr] at h
        cases h
        simp [ih fs' hr]


theorem validateInput_fst_iff (code language : String) :
    (validateInput code language).1 = true ↔ (validateInput code language).2 = [] := by
  have h : (validateInput code language).1 =
      ((validateInput code language).2.length == 0) := rfl
  rw [h]
  simp [List.length_eq_zero]

theorem validateInput_errors_eq (code language : String) :
    (validateInput code language).2 =
      (if code = "" ∨ (jsTrim code).length = 0 then ["Code cannot be empty"]
       else []) ++
      (if code.length > 50000 then
        ["Code exceeds maximum length of 50,000 characters"]
       else []) ++
      (if supportedLanguages.contains language = false then
        ["Unsupported language: " ++ language]
       else []) := by
  simp only [validateInput]
  split_ifs <;> simp

/-- C4: `transformResponse` on the minimal valid provider response (all
optional fields absent) yields exactly the explicit empty report: empty
finding sequences, empty optimized code, zero counts and the top grade. -/
theorem transformResponse_minimal_empty_report :
    transformResponse emptyApiResponse =
      some { issues := [], security := [], performance := [], optimized := "",
             stats := { issuesCount := 0, securityCount := 0,
                        optimizationsCount := 0, qualityScore := "A+" } } := rfl

/-- C1 counterexample: a provider response whose `issues` collection holds a
partially populated finding (no `severity`) makes `transformResponse` throw
(`none`), so normalization is not total over partial findings as claimed. -/
theorem transformResponse_partial_finding_fails :
    transformResponse partialResponse = none := rfl

/-- C1 (amended): for every provider response in which each finding of the
three collections carries a `severity` field, `transformResponse` returns a
report without raising; absent collections default to empty and the other
absent finding fields are replaced through their fallback chains. -/
theorem transformResponse_some_of_severities (r : ApiResponse)
    (h : ∀ f ∈ allRawFindings r, f.severity ≠ none) :
    ∃ report, transformResponse r = some report := by
  have hi : ∀ f ∈ orEmpty r.issues, f.severity ≠ none := fun f hf =>
    h f (by simp only [allRawFindings, List.mem_append]; exact Or.inl (Or.inl hf))
  have hs : ∀ f ∈ orEmpty r.security, f.severity ≠ none := fun f hf =>
    h f (by simp only [allRawFindings, List.mem_append]; exact Or.inl (Or.inr hf))
  have hp : ∀ f ∈ orEmpty r.performance, f.severity ≠ none := fun f hf =>
    h f (by simp only [allRawFindings, List.mem_append]; exact Or.inr hf)
  obtain ⟨is, his⟩ :=
    Option.isSome_iff_exists.mp (transformIssues_isSome_of_severities _ hi)
  obtain ⟨se, hse⟩ :=
    Option.isSome_iff_exists.mp (transformIssues_isSome_of_severities _ hs)
  obtain ⟨pe, hpe⟩ :=
    Option.isSome_iff_exists.mp (transformIssues_isSome_of_severities _ hp)
  obtain ⟨ss, hss⟩ :=
    Option.isSome_iff_exists.mp (severitiesOf_isSome_of_severities _ h)
  have hq : calculateQualityScore r =
      some (qualityGrade ((ss.filter (fun s => s = "high")).length)
        (totalFindings r)) := by
    unfold calculateQualityScore countSeverity
    rw [hss]
    rfl
  have hres : transformResponse r =
      some { issues := is, security := se, performance := pe,
             optimized := jsOrSD r.optimizedCode ""
             stats :=
               { issuesCount := (orEmpty r.issues).length
                 securityCount := (orEmpty r.security).length
                 optimizationsCount := (orEmpty r.performance).length
                 qualityScore :=
                   qualityGrade ((ss.filter (fun s => s = "high")).length)
                     (totalFindings r) } } := by
    unfold transformResponse
    rw [his, hse, hpe, hq]
  exact ⟨_, hres⟩

/-- C1 witness: the amended theorem applied to a concrete response whose one
finding has a severity and nothing else but a message. -/
theorem transformResponse_some_of_severities_witness :
    ∃ report, transformResponse severityOnlyResponse = some report :=
  transformResponse_some_of_severities severityOnlyResponse (by decide)

/-- C9: in every report `transformResponse` produces, the summary counts
equal the lengths of the corresponding finding sequences. -/
theorem transformResponse_stats_agree (r : ApiResponse) (report : AnalysisReport)
    (h : transformResponse r = some report) :
    report.stats.issuesCount = report.issues.length ∧
    report.stats.securityCount = report.security.length ∧
    report.stats.optimizationsCount = report.performance.length := by
  unfold transformResponse at h
  cases h1 : transformIssues (orEmpty r.issues) with
  | none => rw [h1] at h; cases h
  | some is =>
    rw [h1] at h
    cases h2 : transformIssues (orEmpty r.security) with
    | none => rw [h2] at h; cases h
    | some se =>
      rw [h2] at h
      cases h3 : transformIssues (orEmpty r.performance) with
      | none => rw [h3] at h; cases h
      | some pe =>
        rw [h3] at h
        cases h4 : calculateQualityScore r with
        | none => rw [h4] at h; cases h
        | some qs =>
          rw [h4] at h
          cases h
          exact ⟨(transformIssues_length _ _ h1).symm,
                 (transformIssues_length _ _ h2).symm,
                 (transformIssues_length _ _ h3).symm⟩

/-- C9 witness: the invariant at the empty response's report. -/
theorem transformResponse_stats_agree_witness :
    (AnalysisReport.mk [] [] [] "" (Stats.mk 0 0 0 "A+")).stats.issuesCount =
      (AnalysisReport.mk [] [] [] "" (Stats.mk 0 0 0 "A+")).issues.length ∧
    (AnalysisReport.mk [] [] [] "" (Stats.mk 0 0 0 "A+")).stats.securityCount =
      (AnalysisReport.mk [] [] [] "" (Stats.mk 0 0 0 "A+")).security.length ∧
    (AnalysisReport.mk [] [] [] "" (Stats.mk 0 0 0 "A+")).stats.optimizationsCount =
      (AnalysisReport.mk [] [] [] "" (Stats.mk 0 0 0 "A+")).performance.length :=
  transformResponse_stats_agree emptyApiResponse _ rfl

/-- C10: `validateInput` is total on string-typed input, and its `isValid`
field is `true` exactly when its `errors` list is empty. -/
theorem validateInput_isValid_iff_no_errors (code language : String) :
    (validateInput code language).1 = true ↔ (validateInput code language).2 = [] :=
  validateInput_fst_iff code language

/-- C6: empty-after-trimming code is rejected with the emptiness message, and
over-long code is rejected with the length message together with any
simultaneous unsupported-language message. -/
theorem validateInput_reports_all_violations (code language : String) :
    (jsTrim code = "" →
      (validateInput code language).1 = false ∧
      "Code cannot be empty" ∈ (validateInput code language).2) ∧
    (code.length > 50000 →
      (validateInput code language).1 = false ∧
      "Code exceeds maximum length of 50,000 characters" ∈
        (validateInput code language).2 ∧
      (supportedLanguages.contains language = false →
        "Unsupported language: " ++ language ∈ (validateInput code language).2)) := by
  have hE := validateInput_errors_eq code language
  have hfst := validateInput_fst_iff code language
  constructor
  · intro htrim
    have hcond : code = "" ∨ (jsTrim code).length = 0 :=
      Or.inr (by rw [htrim]; rfl)
    have hmem : "Code cannot be empty" ∈ (validateInput code language).2 := by
      rw [hE, if_pos hcond]
      simp
    refine ⟨?_, hmem⟩
    rcases Bool.eq_false_or_eq_true (validateInput code language).1 with hb | hb
    · exact absurd (hfst.mp hb ▸ hmem) (List.not_mem_nil _)
    · exact hb
  · intro hlen
    have hmem2 : "Code exceeds maximum length of 50,000 characters" ∈
        (validateInput code language).2 := by
      rw [hE, if_pos hlen]
      simp
    refine ⟨?_, hmem2, ?_⟩
    · rcases Bool.eq_false_or_eq_true (validateInput code language).1 with hb | hb
      · exact absurd (hfst.mp hb ▸ hmem2) (List.not_mem_nil _)
      · exact hb
    · intro hlang
      rw [hE, if_pos hlang]
      simp

/-- C6 witness: whitespace-only code names the emptiness violation; a
50,001-character code with an unsupported language names both remaining
violations. -/
theorem validateInput_reports_all_violations_witness :
    ((validateInput " " "javascript").1 = false ∧
      "Code cannot be empty" ∈ (validateInput " " "javascript").2) ∧
    ((validateInput oversizedCode "brainfuck").1 = false ∧
      "Code exceeds maximum length of 50,000 characters" ∈
        (validateInput oversizedCode "brainfuck").2 ∧
      "Unsupported language: " ++ "brainfuck" ∈
        (validateInput oversizedCode "brainfuck").2) := by
  constructor
  · exact (validateInput_reports_all_violations " " "javascript").1 (by decide)
  · have hlen : oversizedCode.length > 50000 := by
      have h50 : oversizedCode.length = 50001 := by
        show (List.replicate 50001 'a').length = 50001
        rw [List.length_replicate]
      omega
    have h := (validateInput_reports_all_violations oversizedCode "brainfuck").2 hlen
    exact ⟨h.1, h.2.1, h.2.2 (by decide)⟩

/-- C7: the mock provider ignores both of its arguments: any two calls return
the identical report, so the displayed report does not depend on the
submitted code or the selected language. -/
theorem getMockAnalysisData_constant (code1 language1 code2 language2 : String) :
    getMockAnalysisData code1 language1 = getMockAnalysisData code2 language2 := rfl

/-- C8: on the spec's example input, the mock report's issues contain a
finding about `var` usage, and the quality score is a mid-tier grade,
strictly below the top grade on the grade ordering. -/
theorem mock_example_var_finding_and_grade :
    (∃ f ∈ (getMockAnalysisData exampleCode "javascript").issues,
        "var".data <:+: f.title.data) ∧
    (getMockAnalysisData exampleCode "javascript").stats.qualityScore ≠ "A+" ∧
    0 < gradeValue ((getMockAnalysisData exampleCode "javascript").stats.qualityScore) ∧
    gradeValue ((getMockAnalysisData exampleCode "javascript").stats.qualityScore) <
      gradeValue "A+" := by
  refine ⟨by decide, by decide, by decide, by decide⟩

/-- C2: the quality-score mapping is total (every pair of counts yields one
of the six grades), zero findings yield the top grade, the mapping is
monotone on the fixed grade ordering, and `calculateQualityScore` computes
exactly this mapping of (high-severity count, total finding count). -/
theorem calculateQualityScore_total_monotone :
    (∀ highSeverity totalIssues : Nat,
        qualityGrade highSeverity totalIssues ∈ ["A+", "A", "B+", "B", "C+", "C"]) ∧
    (∀ highSeverity : Nat, qualityGrade highSeverity 0 = "A+") ∧
    (∀ h1 t1 h2 t2 : Nat, h2 ≤ h1 → t2 ≤ t1 → h1 ≤ t1 → h2 ≤ t2 →
        gradeValue (qualityGrade h1 t1) ≤ gradeValue (qualityGrade h2 t2)) ∧
    (∀ (r : ApiResponse) (highSeverity : Nat),
        countSeverity r "high" = some highSeverity →
        calculateQualityScore r =
          some (qualityGrade highSeverity (totalFindings r))) := by
  refine ⟨?_, ?_, ?_, ?_⟩
  · intro hs t
    unfold qualityGrade
    split_ifs <;> simp
  · intro hs
    rfl
  · intro h1 t1 h2 t2 hh ht hc1 hc2
    have g0 : gradeValue "A+" = 5 := rfl
    have g1 : gradeValue "A" = 4 := rfl
    have g2 : gradeValue "B+" = 3 := rfl
    have g3 : gradeValue "B" = 2 := rfl
    have g4 : gradeValue "C+" = 1 := rfl
    have g5 : gradeValue "C" = 0 := rfl
    unfold qualityGrade
    split_ifs <;> simp only [g0, g1, g2, g3, g4, g5] <;> omega
  · intro r highSeverity hhigh
    cases hs : severitiesOf (allRawFindings r) with
    | none =>
      exfalso
      unfold countSeverity at hhigh
      rw [hs] at hhigh
      cases hhigh
    | some l =>
      have hm : countSeverity r "medium" =
          some ((l.filter (fun s => s = "medium")).length) := by
        unfold countSeverity
        rw [hs]
        rfl
      simp only [calculateQualityScore]
      rw [hhigh, hm]

/-- C2 witness: the four conjuncts at concrete counts and at a concrete
response whose one finding's severity is HIGH. -/
theorem calculateQualityScore_total_monotone_witness :
    qualityGrade 3 9 ∈ ["A+", "A", "B+", "B", "C+", "C"] ∧
    qualityGrade 0 0 = "A+" ∧
    gradeValue (qualityGrade 3 9) ≤ gradeValue (qualityGrade 1 2) ∧
    calculateQualityScore severityOnlyResponse =
      some (qualityGrade 1 (totalFindings severityOnlyResponse)) :=
  ⟨calculateQualityScore_total_monotone.1 3 9,
   calculateQualityScore_total_monotone.2.1 0,
   calculateQualityScore_total_monotone.2.2.1 3 9 1 2 (by omega) (by omega)
     (by omega) (by omega),
   calculateQualityScore_total_monotone.2.2.2 severityOnlyResponse 1 (by decide)⟩

theorem makeRequestGo_succeed {α : Type} (behavior : Nat → Option α)
    (retryDelay attempt fuel : Nat) (v : α) (h : behavior attempt = some v) :
    makeRequestGo behavior retryDelay attempt (fuel + 1) = (some v, 1, []) := by
  cases fuel with
  | zero =>
    conv_lhs => rw [makeRequestGo]
    rw [h]
  | succ f =>
    conv_lhs => rw [makeRequestGo]
    rw [h]

theorem makeRequestGo_fail_step {α : Type} (behavior : Nat → Option α)
    (retryDelay attempt fuel : Nat) (h : behavior attempt = none) :
    makeRequestGo behavior retryDelay attempt (fuel + 2) =
      ((makeRequestGo behavior retryDelay (attempt + 1) (fuel + 1)).1,
       (makeRequestGo behavior retryDelay (attempt + 1) (fuel + 1)).2.1 + 1,
       retryDelay * (attempt + 1) ::
         (makeRequestGo behavior retryDelay (attempt + 1) (fuel + 1)).2.2) := by
  conv_lhs => rw [makeRequestGo]
  rw [h]

theorem makeRequestGo_fail_last {α : Type} (behavior : Nat → Option α)
    (retryDelay attempt : Nat) (h : behavior attempt = none) :
    makeRequestGo behavior retryDelay attempt 1 = (none, 1, []) := by
  conv_lhs => rw [makeRequestGo]
  rw [h]

theorem makeRequestGo_spec {α : Type} (behavior : Nat → Option α)
    (retryDelay : Nat) (v : α) :
    ∀ (m attempt fuel : Nat), m < fuel →
      (∀ i, i < m → behavior (attempt + i) = none) →
      behavior (attempt + m) = some v →
      makeRequestGo behavior retryDelay attempt fuel =
        (some v, m + 1,
          (List.range m).map (fun k => retryDelay * (attempt + k + 1))) := by
  intro m
  induction m with
  | zero =>
    intro attempt fuel hfuel hfail hsucc
    rw [Nat.add_zero] at hsucc
    match fuel, hfuel with
    | f + 1, _ =>
      rw [makeRequestGo_succeed behavior retryDelay attempt f v hsucc]
      simp
  | succ m ih =>
    intro attempt fuel hfuel hfail hsucc
    have h0 : behavior attempt = none := by
      have h' := hfail 0 (Nat.succ_pos m)
      rwa [Nat.add_zero] at h'
    match fuel, hfuel with
    | f + 1, hfuel =>
      match f, (by omega : 0 < f) with
      | f' + 1, _ =>
        have hrec := ih (attempt + 1) (f' + 1) (by omega)
          (fun i hi => by
            have h' := hfail (i + 1) (by omega)
            rwa [show attempt + (i + 1) = attempt + 1 + i by omega] at h')
          (by rwa [show attempt + (m + 1) = attempt + 1 + m by omega] at hsucc)
        have hshape : f' + 1 + 1 = f' + 2 := rfl
        rw [hshape, makeRequestGo_fail_step behavior retryDelay attempt f' h0, hrec]
        have hlist : (List.range (m + 1)).map (fun k => retryDelay * (attempt + k + 1)) =
            retryDelay * (attempt + 1) ::
              (List.range m).map (fun k => retryDelay * (attempt + 1 + k + 1)) := by
          rw [List.range_succ_eq_map, List.map_cons, List.map_map]
          have hcomp : ((fun k => retryDelay * (attempt + k + 1)) ∘ Nat.succ) =
              fun k => retryDelay * (attempt + 1 + k + 1) := by
            funext k
            simp only [Function.comp, Nat.succ_eq_add_one]
            ring
          rw [hcomp]
        rw [hlist]

theorem delays_chain {retryDelay n : Nat} (hpos : 0 < retryDelay) :
    ((List.range n).map (fun k => retryDelay * (k + 1))).Chain' (· < ·) :=
  List.Pairwise.chain'
    (List.Pairwise.map _
      (fun a b hab => mul_lt_mul_of_pos_left (by omega) hpos)
      (List.pairwise_lt_range n))

/-- C3: when the first N−1 attempts fail and attempt N succeeds with
N ≤ maxRetries + 1 (the allowed attempt count), `makeRequest` returns the
successful response after exactly N attempts, the delay before retry k is
`retryDelay * k`, and with a positive configured base delay the delays are
strictly increasing. -/
theorem makeRequest_retry_success {α : Type} (behavior : Nat → Option α)
    (maxRetries retryDelay N : Nat) (v : α)
    (hN : 1 ≤ N) (hmax : N ≤ maxRetries + 1)
    (hfail : ∀ i, i < N - 1 → behavior i = none)
    (hsucc : behavior (N - 1) = some v)
    (hpos : 0 < retryDelay) :
    makeRequest behavior maxRetries retryDelay =
      (some v, N, (List.range (N - 1)).map (fun k => retryDelay * (k + 1))) ∧
    ((makeRequest behavior maxRetries retryDelay).2.2).Chain' (· < ·) := by
  have hspec := makeRequestGo_spec behavior retryDelay v (N - 1) 0 (maxRetries + 1)
    (by omega)
    (fun i hi => by simpa using hfail i hi)
    (by simpa using hsucc)
  have harith : N - 1 + 1 = N := by omega
  have hfun : (fun k => retryDelay * (0 + k + 1)) = fun k => retryDelay * (k + 1) := by
    funext k
    norm_num
  have hmr : makeRequest behavior maxRetries retryDelay =
      (some v, N, (List.range (N - 1)).map (fun k => retryDelay * (k + 1))) := by
    show makeRequestGo behavior retryDelay 0 (maxRetries + 1) = _
    rw [hspec, harith, hfun]
  refine ⟨hmr, ?_⟩
  rw [hmr]
  exact delays_chain hpos

/-- C3 witness: a provider failing twice then succeeding, with the
configured maxRetries 3 and base delay 1000. -/
theorem makeRequest_retry_success_witness :
    makeRequest (fun i => if i < 2 then none else some 42) 3 1000 =
      (some 42, 3, (List.range 2).map (fun k => 1000 * (k + 1))) ∧
    ((makeRequest (fun i => if i < 2 then none else some 42) 3 1000).2.2).Chain'
      (· < ·) :=
  makeRequest_retry_success (fun i => if i < 2 then none else some 42) 3 1000 3 42
    (by omega) (by omega)
    (fun i hi => by simp only [if_pos (show i < 2 by omega)])
    rfl
    (by omega)

theorem makeRequestGo_all_fail {α : Type} (behavior : Nat → Option α)
    (retryDelay : Nat) (h : ∀ i, behavior i = none) :
    ∀ fuel attempt, (makeRequestGo behavior retryDelay attempt fuel).1 = none := by
  intro fuel
  induction fuel with
  | zero =>
    intro attempt
    rfl
  | succ f ih =>
    intro attempt
    cases f with
    | zero => rw [makeRequestGo_fail_last behavior retryDelay attempt (h attempt)]
    | succ f' =>
      have hshape : f' + 1 + 1 = f' + 2 := rfl
      rw [hshape, makeRequestGo_fail_step behavior retryDelay attempt f' (h attempt)]
      exact ih (attempt + 1)

/-- C5: when the provider fails on every attempt, `analyzeCode` surfaces
exactly the single failure message and produces no report. -/
theorem analyzeCode_retry_exhaustion_single_error
    (behavior : Nat → Option ApiResponse) (maxRetries retryDelay : Nat)
    (h : ∀ i, behavior i = none) :
    analyzeCode behavior maxRetries retryDelay =
      Except.error "Failed to analyze code. Please try again." := by
  have h1 : (makeRequest behavior maxRetries retryDelay).1 = none :=
    makeRequestGo_all_fail behavior retryDelay h (maxRetries + 1) 0
  unfold analyzeCode
  rw [h1]

/-- C5 witness: the always-failing provider under the configured retry
parameters. -/
theorem analyzeCode_retry_exhaustion_single_error_witness :
    analyzeCode (fun _ => none) 3 1000 =
      Except.error "Failed to analyze code. Please try again." :=
  analyzeCode_retry_exhaustion_single_error (fun _ => none) 3 1000 (fun _ => rfl)
